import Mathlib

/-!
Verification of the execution/cancellation core of PyLearnChat.

Shallow embedding of:
  * `src/utils/code_executor.py` — `CodeExecutor._check_safety`,
    `CodeExecutor._execute_code_in_sandbox`, `CodeExecutor.execute`;
  * `src/models/llm_client.py` — the cancellation-registry state of
    `LLMClient` (`abort_flag`, `request_id`) with `set_abort_flag`,
    `get_abort_flag`, `set_request_id`, `cleanup`, and the begin/end
    fragments of `LLMClient.generate`.

Python strings are Lean `String`s; the nondeterministic parts of an
execution (what the submitted code does inside the worker, whether the
worker finishes before the deadline, whether the result queue already
holds the message, whether the parent raises) are an explicit
environment parameter, and `execute` additionally returns the list of
process-lifecycle events it performed, so that claims about spawning,
terminating and reaping are statements about that trace.
-/

/-- Decision of contiguous-sublist occurrence — the embedding of the
Python substring test `needle in hay` used by `_check_safety`
(code_executor.py line 44). -/
def occursInList (needle : List Char) : List Char → Bool
  | [] => List.isPrefixOf needle []
  | c :: t => List.isPrefixOf needle (c :: t) || occursInList needle t

/-- The Python substring test `needle in hay` on strings. -/
def occursIn (needle hay : String) : Bool :=
  occursInList needle.data hay.data

/-- The default `disallowed_functions` list of `CodeExecutor.__init__`
(code_executor.py lines 34-38). -/
def defaultDisallowedFunctions : List String :=
  ["eval", "exec", "__import__", "open", "getattr", "setattr",
   "delattr", "compile", "globals", "locals", "vars",
   "system", "popen", "spawn", "fork", "kill"]

/-- The configuration of a `CodeExecutor` that the modelled methods
read: its timeout (seconds) and its denylist.  (`memory_limit` and
`allowed_modules` are never consulted by the modelled code paths.) -/
structure CodeExecutor where
  timeout : Nat
  disallowed_functions : List String

/-- Embedding of `CodeExecutor._check_safety` (code_executor.py lines
40-54): scan
the denylist in order, return `(False, "禁止使用的函数: <f>")` for the
first entry `f` occurring in the code as a substring, else
`(True, "")`.  (The import-scanning loop of lines 48-52 has an empty
body — `pass` — and is therefore not part of the model.) -/
def check_loop (code : String) : List String → Bool × String
  | [] => (true, "")
  | f :: rest =>
    if occursIn f code then (false, "禁止使用的函数: " ++ f)
    else check_loop code rest

/-- The check of `_check_safety` applied to the configured denylist of
the executor. -/
def check_safety (ex : CodeExecutor) (code : String) : Bool × String :=
  check_loop code ex.disallowed_functions

/-- What the submitted code does when `exec(code, safe_globals)` runs
inside the worker: the text accumulated on the redirected stdout and
stderr, and — when `exec` raises — the `str(e)` text of the exception
together with its `traceback.format_exc()` text. -/
structure ExecBehavior where
  stdout : String
  stderr : String
  exc : Option String
  tb : String

/-- The result dictionary built by `_execute_code_in_sandbox` and
shipped through the queue: keys `output`, `error` and (only on an
exception) `traceback`. -/
structure SandboxResult where
  output : String
  error : String
  traceback : Option String
  deriving DecidableEq, Repr

/-- Embedding of `CodeExecutor._execute_code_in_sandbox`
(code_executor.py lines 56-99) as a function of the behavior of the
submitted code: on success the
result holds the captured stdout as `output` and the captured stderr
as `error`; when `exec` raises, the assignments on lines 91-92 are
skipped, so `output` keeps its initial `""` and `error` is `str(e)`,
with the traceback recorded alongside. -/
def execute_code_in_sandbox (b : ExecBehavior) : SandboxResult :=
  match b.exc with
  | none => { output := b.stdout, error := b.stderr, traceback := none }
  | some e => { output := "", error := e, traceback := some b.tb }

/-- Process-lifecycle events performed by `execute`:
`spawn` is `process.start()`, `terminate` is `process.terminate()`,
`reap` is a `join` that confirmed the termination of the worker (the
deadline `join(self.timeout)` returning because the worker finished,
or the unbounded `join()` after `terminate`). -/
inductive PEvent where
  | spawn
  | terminate
  | reap
  deriving DecidableEq, Repr

/-- The nondeterminism of one `execute` call: what the code does in
the worker, whether the worker finishes before `join(self.timeout)`
expires, whether the result queue is nonempty when the parent checks
it, and whether an exception is raised inside the control flow of the
parent itself after the worker was spawned (its `str(e)`). -/
structure ExecEnv where
  behavior : ExecBehavior
  finishes_in_time : Bool
  queue_nonempty : Bool
  parent_exc : Option String

/-- The timeout error message of code_executor.py line 131. -/
def timeout_msg (t : Nat) : String :=
  "代码执行超时（" ++ toString t ++ "秒）"

/-- Embedding of `CodeExecutor.execute` (code_executor.py lines
101-149), returning
the result dictionary together with the trace of process-lifecycle
events.  Paths, in source order:
  * unsafe code: return the unsafe-message dictionary, no events;
  * an exception inside the parent after the spawn: the
    `except Exception` handler of lines 145-149 returns `str(e)` as the
    error — without terminating or joining the worker;
  * worker finishes within the deadline: `join(self.timeout)` reaps
    it, then the queue is read (lines 134-143), with a fallback
    message when the queue is empty;
  * deadline elapses: `terminate()` then `join()` (lines 126-132),
    return the timeout message with empty output. -/
def execute (ex : CodeExecutor) (code : String) (env : ExecEnv) :
    SandboxResult × List PEvent :=
  match check_safety ex code with
  | (false, message) =>
    ({ output := "", error := "代码不安全: " ++ message, traceback := none }, [])
  | (true, _) =>
    match env.parent_exc with
    | some e =>
      ({ output := "", error := e, traceback := none }, [PEvent.spawn])
    | none =>
      if env.finishes_in_time then
        if env.queue_nonempty then
          (execute_code_in_sandbox env.behavior, [PEvent.spawn, PEvent.reap])
        else
          ({ output := "", error := "没有获取到执行结果", traceback := none },
           [PEvent.spawn, PEvent.reap])
      else
        ({ output := "", error := timeout_msg ex.timeout, traceback := none },
         [PEvent.spawn, PEvent.terminate, PEvent.reap])

/-- The cancellation-registry state of `LLMClient`
(llm_client.py lines 50-53): the shared abort flag and the single
active request id (`None` when no session has been recorded).  The
other fields of the class (the chat model, history, locks) play no
part in the modelled operations; the lock-guarded critical sections
are modelled as atomic state transitions. -/
structure LLMClient where
  abort_flag : Bool
  request_id : Option String
  deriving DecidableEq, Repr

/-- Embedding of `LLMClient.set_abort_flag` (llm_client.py lines
62-77): with no
request id the flag is set unconditionally (abort-all) and `True` is
returned; with a request id the flag is set only when it equals the
active `self.request_id`, returning `True` on a match and `False`
otherwise (leaving the state untouched). -/
def set_abort_flag (s : LLMClient) (flag : Bool)
    (request_id : Option String) : LLMClient × Bool :=
  match request_id with
  | none => ({ s with abort_flag := flag }, true)
  | some r =>
    if s.request_id = some r then ({ s with abort_flag := flag }, true)
    else (s, false)

/-- Embedding of `LLMClient.get_abort_flag` (llm_client.py lines
94-97): returns
the flag; it takes no request id. -/
def get_abort_flag (s : LLMClient) : Bool :=
  s.abort_flag

/-- Embedding of `LLMClient.set_request_id` (llm_client.py lines
99-102). -/
def set_request_id (s : LLMClient) (request_id : String) : LLMClient :=
  { s with request_id := some request_id }

/-- Embedding of `LLMClient.cleanup` (llm_client.py lines 79-92):
abort-all via
`set_abort_flag(True)`, then reset `request_id` to `None` (the
chat-history clearing touches no registry state). -/
def cleanup (s : LLMClient) : LLMClient :=
  { (set_abort_flag s true none).fst with request_id := none }

/-- Python truthiness of an optional string (`if request_id:`):
`None` and `""` are falsy. -/
def pyTruthy : Option String → Bool
  | none => false
  | some r => r ≠ ""

/-- The cancellation poll of the streaming loop in `LLMClient.generate`
(llm_client.py line 224): `if request_id and self.get_abort_flag():`.
This is the code realising the operation `isCancelled(requestId)` of
the spec: note
that `get_abort_flag` receives no request id. -/
def isCancelled (s : LLMClient) (request_id : Option String) : Bool :=
  pyTruthy request_id && get_abort_flag s

/-- The session-begin fragment of `LLMClient.generate` (llm_client.py
lines 213-215), run when a truthy `request_id` is supplied: record the
request id as active, then clear the abort flag for it. -/
def generate_begin (s : LLMClient) (request_id : String) : LLMClient :=
  (set_abort_flag (set_request_id s request_id) false (some request_id)).fst

/-- The `finally` block of `LLMClient.generate` (llm_client.py lines
247-250), run on every terminal outcome of a streaming session with a
truthy `request_id`: `self.set_abort_flag(False, request_id)`. -/
def generate_end (s : LLMClient) (request_id : String) : LLMClient :=
  (set_abort_flag s false (some request_id)).fst


/-- An executor with the default configuration of `CodeExecutor.__init__`
(timeout 5 seconds, default denylist). -/
def exDefault : CodeExecutor :=
  { timeout := 5, disallowed_functions := defaultDisallowedFunctions }

/-- An executor configured with a two-second timeout, as in the testable
property of the spec. -/
def exTwoSecond : CodeExecutor :=
  { timeout := 2, disallowed_functions := defaultDisallowedFunctions }

/-- Behavior of a submission that prints `hello` and raises nothing. -/
def behaviorHello : ExecBehavior :=
  { stdout := "hello\n", stderr := "", exc := none, tb := "" }

/-- Behavior of a submission that prints some text and then raises a
division-by-zero error. -/
def behaviorCrash : ExecBehavior :=
  { stdout := "printed before the crash\n", stderr := "late stderr text",
    exc := some "division by zero", tb := "Traceback (most recent call last): ZeroDivisionError" }

/-- Environment of a normal run: the worker finishes in time and the
result message is in the queue; no parent exception. -/
def envNormal : ExecEnv :=
  { behavior := behaviorHello, finishes_in_time := true,
    queue_nonempty := true, parent_exc := none }

/-- Environment of a crashing run: the worker finishes in time (the
exception was caught inside the worker) and ships its result. -/
def envCrash : ExecEnv :=
  { behavior := behaviorCrash, finishes_in_time := true,
    queue_nonempty := true, parent_exc := none }

/-- Environment of a hanging run: the worker is still alive when the
deadline of `join(self.timeout)` elapses. -/
def envHang : ExecEnv :=
  { behavior := behaviorHello, finishes_in_time := false,
    queue_nonempty := false, parent_exc := none }

/-- Environment in which the control flow of the parent itself raises
after the worker was spawned (for example an interrupt delivered while
blocked in `join`). -/
def envParentError : ExecEnv :=
  { behavior := behaviorHello, finishes_in_time := true,
    queue_nonempty := true, parent_exc := some "KeyboardInterrupt" }

/-- A list is a prefix of itself followed by anything. -/
theorem isPrefixOf_append_self (n b : List Char) :
    List.isPrefixOf n (n ++ b) = true := by
  induction n with
  | nil => cases b <;> rfl
  | cons c t ih => simp [List.isPrefixOf, ih]

/-- A needle occurs in any haystack it is a prefix of. -/
theorem occursInList_of_isPrefixOf (n hay : List Char)
    (h : List.isPrefixOf n hay = true) : occursInList n hay = true := by
  cases hay with
  | nil => simpa [occursInList] using h
  | cons c t => simp [occursInList, h]

/-- A needle occurs in any haystack enclosing it. -/
theorem occursInList_append (n a b : List Char) :
    occursInList n (a ++ (n ++ b)) = true := by
  induction a with
  | nil =>
    simpa using occursInList_of_isPrefixOf n (n ++ b) (isPrefixOf_append_self n b)
  | cons c a ih => simp [occursInList, ih]

/-- String version of `occursInList_append`. -/
theorem occursIn_append (n a b : String) :
    occursIn n (a ++ n ++ b) = true := by
  unfold occursIn
  rw [show (a ++ n ++ b).data = a.data ++ (n.data ++ b.data) by
    simp [String.data_append]]
  exact occursInList_append n.data a.data b.data

/-- A string occurs in any string that appends it on the right. -/
theorem occursIn_append_right (n a : String) :
    occursIn n (a ++ n) = true := by
  unfold occursIn
  rw [String.data_append]
  simpa using occursInList_append n.data a.data []

/-- The denylist loop of `_check_safety` returns exactly the first
matching entry, in denylist order. -/
theorem check_loop_eq_find (code : String) (l : List String) :
    check_loop code l =
      match List.find? (fun f => occursIn f code) l with
      | some f => (false, "禁止使用的函数: " ++ f)
      | none => (true, "") := by
  induction l with
  | nil => rfl
  | cons f rest ih =>
    cases h : occursIn f code with
    | true => simp [check_loop, List.find?_cons, h]
    | false => simp [check_loop, List.find?_cons, h, ih]

/-- The denylist loop rejects exactly when some entry occurs in the
code. -/
theorem check_loop_false_iff (code : String) (l : List String) :
    (check_loop code l).fst = false ↔ ∃ f ∈ l, occursIn f code = true := by
  induction l with
  | nil => simp [check_loop]
  | cons f rest ih =>
    cases h : occursIn f code with
    | true =>
      constructor
      · intro _
        exact ⟨f, List.mem_cons_self f rest, h⟩
      · intro _
        simp [check_loop, h]
    | false =>
      simp only [check_loop, h, Bool.false_eq_true, if_false, ih,
        List.mem_cons]
      constructor
      · rintro ⟨g, hg, hocc⟩
        exact ⟨g, Or.inr hg, hocc⟩
      · rintro ⟨g, hg | hg, hocc⟩
        · exact absurd hocc (by simp [hg, h])
        · exact ⟨g, hg, hocc⟩

/-- A string occurs in a string that nests it at the right end of two
appends. -/
theorem occursIn_append_right2 (n a b : String) :
    occursIn n (a ++ (b ++ n)) = true := by
  unfold occursIn
  rw [String.data_append, String.data_append]
  simpa [List.append_assoc] using
    occursInList_append n.data (a.data ++ b.data) []

/-- C9: the safety check rejects a source text exactly when some
configured denylist entry occurs in it as an exact substring — the
test is plain substring containment, so occurrences inside comments or
string literals are rejected just the same — and the rejection reason
names the first matching denylist entry in list order, while a text
with no match yields the Ok result `(True, "")`.  The check is a pure
function of the source text and the configured denylist. -/
theorem C9_check_safety_characterisation (ex : CodeExecutor) (code : String) :
    ((check_safety ex code).fst = false ↔
      ∃ f ∈ ex.disallowed_functions, occursIn f code = true) ∧
    check_safety ex code =
      (match List.find? (fun f => occursIn f code) ex.disallowed_functions with
       | some f => (false, "禁止使用的函数: " ++ f)
       | none => (true, "")) :=
  ⟨check_loop_false_iff code ex.disallowed_functions,
   check_loop_eq_find code ex.disallowed_functions⟩

/-- C1: for every source text containing at least one configured
denylist entry as a substring, `execute` returns the rejection outcome
— empty output, error message naming the first matched token — and its
event trace is empty: no worker process is ever spawned, the safety
check having run before any spawn. -/
theorem C1_reject_before_spawn (ex : CodeExecutor) (code : String)
    (env : ExecEnv)
    (h : ∃ f ∈ ex.disallowed_functions, occursIn f code = true) :
    ∃ f, List.find? (fun g => occursIn g code) ex.disallowed_functions
        = some f ∧
      occursIn f code = true ∧
      execute ex code env =
        ({ output := "", error := "代码不安全: " ++ ("禁止使用的函数: " ++ f),
           traceback := none }, []) ∧
      occursIn f ("代码不安全: " ++ ("禁止使用的函数: " ++ f)) = true := by
  obtain ⟨f, hmem, hocc⟩ := h
  have hsome : (List.find? (fun g => occursIn g code)
      ex.disallowed_functions).isSome := by
    rw [List.find?_isSome]
    exact ⟨f, hmem, hocc⟩
  obtain ⟨g, hg⟩ := Option.isSome_iff_exists.mp hsome
  have hoccg' := List.find?_some hg
  have hoccg : occursIn g code = true := hoccg'
  have hcs : check_safety ex code = (false, "禁止使用的函数: " ++ g) := by
    unfold check_safety
    rw [check_loop_eq_find, hg]
  refine ⟨g, hg, hoccg, ?_, occursIn_append_right2 g "代码不安全: " "禁止使用的函数: "⟩
  simp [execute, hcs]

/-- Witness for C1 at the concrete submission `x = eval(data)`. -/
theorem C1_witness :
    ∃ f, List.find? (fun g => occursIn g "x = eval(data)")
        exDefault.disallowed_functions = some f ∧
      occursIn f "x = eval(data)" = true ∧
      execute exDefault "x = eval(data)" envNormal =
        ({ output := "", error := "代码不安全: " ++ ("禁止使用的函数: " ++ f),
           traceback := none }, []) ∧
      occursIn f ("代码不安全: " ++ ("禁止使用的函数: " ++ f)) = true :=
  C1_reject_before_spawn exDefault "x = eval(data)" envNormal
    ⟨"eval", by decide, by decide⟩

/-- C2: for every execution in which the worker is still alive when
the deadline of `join(self.timeout)` elapses (and the parent itself
raises no exception), `execute` terminates the worker, joins it until
termination is confirmed, and returns the timed-out outcome: empty
output and an error message naming the configured timeout duration. -/
theorem C2_timeout_terminates_and_reaps (ex : CodeExecutor) (code : String)
    (env : ExecEnv) (hsafe : (check_safety ex code).fst = true)
    (hexc : env.parent_exc = none) (htime : env.finishes_in_time = false) :
    execute ex code env =
      ({ output := "", error := timeout_msg ex.timeout, traceback := none },
       [PEvent.spawn, PEvent.terminate, PEvent.reap]) ∧
    occursIn (toString ex.timeout) (timeout_msg ex.timeout) = true := by
  constructor
  · rcases hcs : check_safety ex code with ⟨b, msg⟩
    rw [hcs] at hsafe
    replace hsafe : b = true := hsafe
    subst hsafe
    simp [execute, hcs, hexc, htime]
  · unfold timeout_msg
    exact occursIn_append (toString ex.timeout) "代码执行超时（" "秒）"

/-- Witness for C2: a two-second executor on a looping submission. -/
theorem C2_witness :
    execute exTwoSecond "while True:\n    pass" envHang =
      ({ output := "", error := timeout_msg exTwoSecond.timeout,
         traceback := none },
       [PEvent.spawn, PEvent.terminate, PEvent.reap]) ∧
    occursIn (toString exTwoSecond.timeout)
      (timeout_msg exTwoSecond.timeout) = true :=
  C2_timeout_terminates_and_reaps exTwoSecond "while True:\n    pass" envHang
    (by decide) rfl rfl

/-- C3 as stated is refuted by the exception path: when an exception
is raised in the control flow of the parent after the spawn, the
`except` handler of code_executor.py lines 145-149 returns an outcome
while the worker has seen neither `terminate` nor a confirming `join`. -/
theorem C3_counterexample :
    ¬ ∀ (ex : CodeExecutor) (code : String) (env : ExecEnv),
        PEvent.spawn ∈ (execute ex code env).snd →
          PEvent.reap ∈ (execute ex code env).snd := by
  intro h
  exact absurd (h exDefault "print(1)" envParentError (by decide)) (by decide)

/-- C3 amended: on the normal-completion and timeout exit paths every
spawned worker is reaped before `execute` returns, but on the
exception path the call returns with the worker spawned and neither
terminated nor reaped. -/
theorem C3_reap_guarantee (ex : CodeExecutor) (code : String) (env : ExecEnv)
    (hsafe : (check_safety ex code).fst = true) :
    (env.parent_exc = none →
      PEvent.spawn ∈ (execute ex code env).snd ∧
      PEvent.reap ∈ (execute ex code env).snd) ∧
    (∀ e, env.parent_exc = some e →
      (execute ex code env).snd = [PEvent.spawn]) := by
  rcases hcs : check_safety ex code with ⟨b, msg⟩
  rw [hcs] at hsafe
  replace hsafe : b = true := hsafe
  subst hsafe
  constructor
  · intro hexc
    cases hft : env.finishes_in_time <;>
      cases hq : env.queue_nonempty <;>
        simp [execute, hcs, hexc, hft, hq]
  · intro e hexc
    simp [execute, hcs, hexc]

/-- Witness for the amended C3 at the concrete exception environment. -/
theorem C3_witness :
    (envParentError.parent_exc = none →
      PEvent.spawn ∈ (execute exDefault "print(1)" envParentError).snd ∧
      PEvent.reap ∈ (execute exDefault "print(1)" envParentError).snd) ∧
    (∀ e, envParentError.parent_exc = some e →
      (execute exDefault "print(1)" envParentError).snd = [PEvent.spawn]) :=
  C3_reap_guarantee exDefault "print(1)" envParentError (by decide)

/-- C4 as stated is refuted: when the submitted code raises, the
worker result keeps `output = ""` (lines 91-92 of code_executor.py are
skipped), so the captured stdout is not contained in the returned
outcome in the Crashed case. -/
theorem C4_counterexample :
    ¬ ∀ (ex : CodeExecutor) (code : String) (env : ExecEnv),
        (check_safety ex code).fst = true →
        env.parent_exc = none →
        env.finishes_in_time = true →
        env.queue_nonempty = true →
        ((execute ex code env).fst.output = env.behavior.stdout ∧
         (env.behavior.exc = none →
           (execute ex code env).fst.error = env.behavior.stderr) ∧
         (∀ e, env.behavior.exc = some e →
           (execute ex code env).fst.error = e)) := by
  intro h
  have h1 := (h exDefault "print(1 / 0)" envCrash (by decide) rfl rfl rfl).1
  exact absurd h1 (by decide)

/-- C4 amended: when the worker finishes within the deadline and its
result message is in the queue, the returned outcome is exactly the
worker result: captured stdout and stderr when the submitted code
raised nothing, and — when it raised — empty output with the error
message populated from the failure text of the exception (the captured
stdout and stderr being discarded). -/
theorem C4_result_within_deadline (ex : CodeExecutor) (code : String)
    (env : ExecEnv) (hsafe : (check_safety ex code).fst = true)
    (hexc : env.parent_exc = none) (hft : env.finishes_in_time = true)
    (hq : env.queue_nonempty = true) :
    (execute ex code env).fst = execute_code_in_sandbox env.behavior ∧
    (env.behavior.exc = none →
      (execute ex code env).fst =
        { output := env.behavior.stdout, error := env.behavior.stderr,
          traceback := none }) ∧
    (∀ e, env.behavior.exc = some e →
      (execute ex code env).fst =
        { output := "", error := e, traceback := some env.behavior.tb }) := by
  rcases hcs : check_safety ex code with ⟨b, msg⟩
  rw [hcs] at hsafe
  replace hsafe : b = true := hsafe
  subst hsafe
  refine ⟨?_, ?_, ?_⟩
  · simp [execute, hcs, hexc, hft, hq]
  · intro hb
    simp [execute, hcs, hexc, hft, hq, execute_code_in_sandbox, hb]
  · intro e hb
    simp [execute, hcs, hexc, hft, hq, execute_code_in_sandbox, hb]

/-- Witness for the amended C4 at the concrete crashing submission. -/
theorem C4_witness :
    (execute exDefault "print(1 / 0)" envCrash).fst =
      execute_code_in_sandbox envCrash.behavior ∧
    (envCrash.behavior.exc = none →
      (execute exDefault "print(1 / 0)" envCrash).fst =
        { output := envCrash.behavior.stdout,
          error := envCrash.behavior.stderr, traceback := none }) ∧
    (∀ e, envCrash.behavior.exc = some e →
      (execute exDefault "print(1 / 0)" envCrash).fst =
        { output := "", error := e,
          traceback := some envCrash.behavior.tb }) :=
  C4_result_within_deadline exDefault "print(1 / 0)" envCrash
    (by decide) rfl rfl rfl

/-- C5 as stated is refuted: `get_abort_flag` receives no request id,
so after the active session `a` is aborted, the poll for a different
request id `b` also reports true. -/
theorem C5_counterexample :
    ¬ ∀ (s : LLMClient) (r : String),
        isCancelled s (some r) = true →
          s.request_id = some r ∧ s.abort_flag = true := by
  intro h
  have hc := (h (set_abort_flag (generate_begin ⟨false, none⟩ "a") true
      (some "a")).fst "b" (by decide)).1
  exact absurd hc (by decide)

/-- C5 amended: the poll ignores which request id asks — for any
truthy request id it returns exactly the global abort flag (so a true
answer does require the flag to be set, but not that the id matches
the active session); a falsy id polls as false. -/
theorem C5_isCancelled_ignores_id (s : LLMClient) (r : String)
    (hr : r ≠ "") :
    isCancelled s (some r) = s.abort_flag ∧
    (isCancelled s (some r) = true → s.abort_flag = true) ∧
    isCancelled s none = false := by
  unfold isCancelled pyTruthy get_abort_flag
  simp [hr]

/-- Witness for the amended C5 on a state whose active session is a
different id. -/
theorem C5_witness :
    isCancelled ⟨true, some "a"⟩ (some "b") =
      (⟨true, some "a"⟩ : LLMClient).abort_flag ∧
    (isCancelled ⟨true, some "a"⟩ (some "b") = true →
      (⟨true, some "a"⟩ : LLMClient).abort_flag = true) ∧
    isCancelled ⟨true, some "a"⟩ none = false :=
  C5_isCancelled_ignores_id ⟨true, some "a"⟩ "b" (by decide)

/-- C6: aborting with a request id that does not match the active
session returns `False` and is a complete no-op — the state is
unchanged, so every later poll is unaffected. -/
theorem C6_stale_abort_is_noop (s : LLMClient) (r : String)
    (h : s.request_id ≠ some r) :
    set_abort_flag s true (some r) = (s, false) ∧
    (∀ q, isCancelled (set_abort_flag s true (some r)).fst q =
      isCancelled s q) := by
  constructor
  · simp [set_abort_flag, h]
  · intro q
    simp [set_abort_flag, h]

/-- Witness for C6: aborting an unknown id while session `r1` is
active. -/
theorem C6_witness :
    set_abort_flag (generate_begin ⟨false, none⟩ "r1") true
        (some "unknown-id") =
      (generate_begin ⟨false, none⟩ "r1", false) ∧
    (∀ q, isCancelled (set_abort_flag (generate_begin ⟨false, none⟩ "r1")
        true (some "unknown-id")).fst q =
      isCancelled (generate_begin ⟨false, none⟩ "r1") q) :=
  C6_stale_abort_is_noop (generate_begin ⟨false, none⟩ "r1") "unknown-id"
    (by decide)

/-- C7 as stated is refuted: the `finally` fragment of `generate` only
resets the abort flag; it never clears the active request id. -/
theorem C7_counterexample :
    ¬ ∀ (s : LLMClient) (r : String),
        (generate_end s r).abort_flag = false ∧
        (generate_end s r).request_id = none := by
  intro h
  have hc := (h (generate_begin ⟨false, none⟩ "r1") "r1").2
  exact absurd hc (by decide)

/-- C7 amended: the terminal `finally` fragment leaves the active
request id untouched and clears the abort flag only when the given id
still matches the active session (otherwise it is a no-op); protection
of the next session against a stale flag comes instead from the begin
fragment, which always clears the flag. -/
theorem C7_end_resets_only_flag (s : LLMClient) (r : String) :
    (generate_end s r).request_id = s.request_id ∧
    (s.request_id = some r → (generate_end s r).abort_flag = false) ∧
    (s.request_id ≠ some r → generate_end s r = s) ∧
    (∀ (t : LLMClient) (q : String),
      (generate_begin t q).abort_flag = false) := by
  refine ⟨?_, ?_, ?_, ?_⟩
  · by_cases h : s.request_id = some r <;> simp [generate_end, set_abort_flag, h]
  · intro h
    simp [generate_end, set_abort_flag, h]
  · intro h
    simp [generate_end, set_abort_flag, h]
  · intro t q
    simp [generate_begin, set_request_id, set_abort_flag]

/-- C8: beginning a session for a truthy request id and then aborting
that same id succeeds and makes the poll report cancellation. -/
theorem C8_begin_then_abort (s : LLMClient) (r : String) (hr : r ≠ "") :
    (set_abort_flag (generate_begin s r) true (some r)).snd = true ∧
    (set_abort_flag (generate_begin s r) true (some r)).fst =
      { abort_flag := true, request_id := some r } ∧
    isCancelled (set_abort_flag (generate_begin s r) true (some r)).fst
      (some r) = true := by
  unfold isCancelled pyTruthy get_abort_flag
  simp [generate_begin, set_request_id, set_abort_flag, hr]

/-- Witness for C8 with session id `r1` from the initial state. -/
theorem C8_witness :
    (set_abort_flag (generate_begin ⟨false, none⟩ "r1") true
        (some "r1")).snd = true ∧
    (set_abort_flag (generate_begin ⟨false, none⟩ "r1") true
        (some "r1")).fst =
      { abort_flag := true, request_id := some "r1" } ∧
    isCancelled (set_abort_flag (generate_begin ⟨false, none⟩ "r1") true
        (some "r1")).fst (some "r1") = true :=
  C8_begin_then_abort ⟨false, none⟩ "r1" (by decide)

/-- C10: calling `set_abort_flag` with no request id sets the flag to
the given value for every registry state — bypassing the id-matching
rule — and returns `True`; `cleanup` relies on this abort-all path,
leaving the flag set and the active id cleared. -/
theorem C10_abort_all_bypasses_matching (s : LLMClient) (flag : Bool) :
    set_abort_flag s flag none = ({ s with abort_flag := flag }, true) ∧
    cleanup s = { abort_flag := true, request_id := none } := by
  exact ⟨rfl, rfl⟩
